import Mathlib

/-!
AprilTags ROS node (`src/apriltags.cpp`)

A shallow embedding of the node's callbacks.  The node-wide globals of the C++ file
(`tag_sizes_`, `default_tag_size_`, `camera_info_`, `has_camera_info_`, `running_`, the two
subscriber handles, ...) are the fields of `Node`; every function takes the node and returns
the node it leaves behind.  What the node does to the outside world (log macros, calls into
the detector and the pose solver, publishing, subscribing) is appended, in program order, to
`Node.log`.  Library functions whose bodies are not part of the file (cv_bridge, the tag
detector, OpenCV, Eigen, boost::lexical_cast, the clock) are the fields of `Extern`.

`double` values are modelled by rationals (double arithmetic is taken as exact). `float`
values are the rationals with a 24-bit significand: every place where the source narrows a
`double` to a `float` (`cv::Point3f`, `cv::Matx33f`) goes through `toFloat`.
`int` values are integers; the conversion to the `size_t` key of `tag_sizes_` is explicit.
-/

namespace Apriltags

/-! ## Data model -/

/-- Conversion of a C++ `int` to `size_t` (64 bit): reduction modulo `2^64`. -/
def toSizeT (i : Int) : Nat := (i % (2 ^ 64 : Int)).toNat

/-- Nearest integer to `n / d`, ties to the even one. -/
def roundHalfEven (n d : Nat) : Nat :=
  let q := n / d
  let r := n % d
  if 2 * r < d then q else if d < 2 * r then q + 1 else if q % 2 = 0 then q else q + 1

/-- The least `k`, at most `fuel`, with `d ≤ n * 2 ^ k`. -/
def shiftsUp : Nat → Nat → Nat → Nat
  | 0, _, _ => 0
  | fuel + 1, n, d => if d ≤ n then 0 else shiftsUp fuel (2 * n) d + 1

/-- The greatest `k`, at most `fuel`, with `d * 2 ^ k ≤ n`. -/
def shiftsDown : Nat → Nat → Nat → Nat
  | 0, _, _ => 0
  | fuel + 1, n, d => if n < 2 * d then 0 else shiftsDown fuel n (2 * d) + 1

/-- The `float` nearest to `n / d` (round to nearest, ties to even): 24 significant bits,
exponent not below `-126`, so that below `2 ^ (-126)` the spacing stays `2 ^ (-149)`.
Magnitudes that round to `2 ^ 128` or more become an infinity in the machine; they have no
rational value and are kept here at 24 significant bits. -/
def floatMagnitude (n d : Nat) : ℚ :=
  if n < d then
    let up := 23 + shiftsUp 126 n d
    (roundHalfEven (n * 2 ^ up) d : ℚ) / 2 ^ up
  else
    let e := shiftsDown n n d
    if e ≤ 23 then (roundHalfEven (n * 2 ^ (23 - e)) d : ℚ) / 2 ^ (23 - e)
    else (roundHalfEven n (d * 2 ^ (e - 23)) : ℚ) * 2 ^ (e - 23)

/-- Narrowing of a `double` to a `float`, as in the constructors of `cv::Point3f` and
`cv::Matx33f`. -/
def toFloat (x : ℚ) : ℚ :=
  if x.num < 0 then -floatMagnitude x.num.natAbs x.den else floatMagnitude x.num.natAbs x.den

/-- Image point, `cv::Point2f`. -/
structure Point2f where
  x : ℚ
  y : ℚ
deriving DecidableEq

/-- Frame reference point, `cv::Point2d`. -/
structure Point2d where
  x : ℚ
  y : ℚ
deriving DecidableEq

/-- Object point, `cv::Point3f`. -/
structure Point3f where
  x : ℚ
  y : ℚ
  z : ℚ
deriving DecidableEq

/-- The fields of `TagDetection` that the node reads: the tag id and the four corners. -/
structure TagDetection where
  id : Int
  p : Fin 4 → Point2f

/-- The fields of `sensor_msgs::CameraInfo` that matter here; `K` is the row-major 3x3
intrinsic matrix. -/
structure CameraInfo where
  height : Nat
  width : Nat
  K : Fin 9 → ℚ

/-- Incoming `sensor_msgs::Image`. -/
structure Image where
  height : Nat
  width : Nat
  encoding : String
  data : List Nat

/-- Converted grayscale frame, `cv::Mat`. -/
structure Mat where
  rows : Nat
  cols : Nat
  data : List Nat

/-- Shape of a marker (`visualization_msgs::Marker::ARROW`, `CUBE`). -/
inductive MarkerShape where
  | ARROW
  | CUBE
deriving DecidableEq

/-- Action of a marker (`visualization_msgs::Marker::ADD`). -/
inductive MarkerAction where
  | ADD
deriving DecidableEq

/-- Position, scale: three doubles. -/
structure Vector3 where
  x : ℚ
  y : ℚ
  z : ℚ
deriving DecidableEq

/-- Orientation, `Eigen::Quaternion<double>`. -/
structure Quaternion where
  x : ℚ
  y : ℚ
  z : ℚ
  w : ℚ
deriving DecidableEq

/-- Colour, `std_msgs::ColorRGBA`. -/
structure ColorRGBA where
  r : ℚ
  g : ℚ
  b : ℚ
  a : ℚ
deriving DecidableEq

/-- The fields of `visualization_msgs::Marker` that `ImageCallback` assigns. -/
structure Marker where
  frame_id : String
  stamp : Nat
  ns : String
  id : Int
  type : MarkerShape
  action : MarkerAction
  position : Vector3
  orientation : Quaternion
  scale : Vector3
  color : ColorRGBA
deriving DecidableEq

/-- The two input streams of the node. -/
inductive Stream where
  | image
  | camera_info
deriving DecidableEq

/-- What the node does to the outside world, in program order. -/
inductive Event where
  | ROS_WARN (text : String)
  | ROS_ERROR (text : String)
  | ROS_DEBUG (text : String)
  | process (image : Mat) (opticalCenter : Point2d)
  | solvePnP (object_pts : List Point3f) (image_pts : List Point2f)
      (intrinsics : Matrix (Fin 3) (Fin 3) ℚ) (dist_param : Fin 4 → ℚ)
  | publish (markers : List Marker)
  | imshow (window : String) (image : Mat)
  | subscribe (stream : Stream) (queue_size : Nat)
  | shutdown (stream : Stream)

/-- The node-wide state: the globals of the file, the number of live subscriptions the
transport holds for the node on each stream, and the log of external effects. -/
structure Node where
  tag_sizes_ : Nat → Option ℚ
  default_tag_size_ : ℚ
  camera_info_ : CameraInfo
  has_camera_info_ : Bool
  running_ : Bool
  viewer_ : Int
  tag_family_name_ : String
  frame_ : String
  image_subscriber : Bool
  info_subscriber : Bool
  image_live : Nat
  info_live : Nat
  log : List Event

/-- Library functions called by the node. `toCvCopy` is `none` when cv_bridge throws;
`solvePnP` returns its status flag together with `rvec` and `tvec`; `now i` is the clock
reading taken in iteration `i` of the marker loop; `lexical_cast` is `none` when
`boost::lexical_cast<int>` throws `bad_lexical_cast`. -/
structure Extern where
  toCvCopy : Image → String → Option Mat
  process : Mat → Point2d → List TagDetection
  superimposeDetections : Mat → List TagDetection → Mat
  solvePnP : List Point3f → List Point2f → Matrix (Fin 3) (Fin 3) ℚ → (Fin 4 → ℚ) →
    Bool × (Fin 3 → ℚ) × (Fin 3 → ℚ)
  Rodrigues : (Fin 3 → ℚ) → Matrix (Fin 3) (Fin 3) ℚ
  quaternion : Matrix (Fin 3) (Fin 3) ℚ → Quaternion
  now : Nat → Nat
  lexical_cast : String → Option Int

/-- Append one external effect to the log. -/
def Node.emit (s : Node) (e : Event) : Node := { s with log := s.log ++ [e] }

/-! ## Tag sizes and pose -/

/-- Function `GetTagSize` (lines 33-42): `find` on the map with the id converted to `size_t`;
the stored value when found, `default_tag_size_` otherwise. The node is returned as is. -/
def GetTagSize (s : Node) (tag_id : Int) : ℚ × Node :=
  match s.tag_sizes_ (toSizeT tag_id) with
  | some tag_size => (tag_size, s)
  | none => (s.default_tag_size_, s)

/-- The four object points pushed at lines 52-55; each `cv::Point3f` narrows the `double`
coordinates it is built from. -/
def object_pts (tag_radius : ℚ) : List Point3f :=
  [⟨toFloat (-tag_radius), toFloat (-tag_radius), 0⟩,
   ⟨toFloat tag_radius, toFloat (-tag_radius), 0⟩,
   ⟨toFloat tag_radius, toFloat tag_radius, 0⟩,
   ⟨toFloat (-tag_radius), toFloat tag_radius, 0⟩]

/-- The four image points pushed at lines 57-60. -/
def image_pts (detection : TagDetection) : List Point2f :=
  [detection.p 0, detection.p 1, detection.p 2, detection.p 3]

/-- The pinhole matrix built at lines 62-64, a `cv::Matx33f`: the `double` entries of `K`
are narrowed. -/
def intrinsics (camera_info : CameraInfo) : Matrix (Fin 3) (Fin 3) ℚ :=
  !![toFloat (camera_info.K 0), 0, toFloat (camera_info.K 2);
     0, toFloat (camera_info.K 4), toFloat (camera_info.K 5);
     0, 0, 1]

/-- The zero distortion vector of line 67. -/
def dist_param : Fin 4 → ℚ := ![0, 0, 0, 0]

/-- Lines 77-81: rotation in the top-left block, translation in the last column,
bottom row `0 0 0 1`. -/
def assemble (rot : Matrix (Fin 3) (Fin 3) ℚ) (tvec : Fin 3 → ℚ) : Matrix (Fin 4) (Fin 4) ℚ :=
  !![rot 0 0, rot 0 1, rot 0 2, tvec 0;
     rot 1 0, rot 1 1, rot 1 2, tvec 1;
     rot 2 0, rot 2 1, rot 2 2, tvec 2;
     0, 0, 0, 1]

/-- Function `GetDetectionTransform` (lines 44-84). The status flag returned by `solvePnP` is not
read. -/
def GetDetectionTransform (X : Extern) (s : Node) (detection : TagDetection) :
    Matrix (Fin 4) (Fin 4) ℚ × Node :=
  let tag_size := (GetTagSize s detection.id).1
  let tag_radius := tag_size / 2
  let K := intrinsics s.camera_info_
  let solved := X.solvePnP (object_pts tag_radius) (image_pts detection) K dist_param
  let s1 := s.emit (Event.solvePnP (object_pts tag_radius) (image_pts detection) K dist_param)
  let rvec := solved.2.1
  let tvec := solved.2.2
  let rot := X.Rodrigues rvec
  (assemble rot tvec, s1)

/-! ## Calibration and frame callbacks -/

/-- Function `InfoCallback` (lines 87-91): store the message, mark calibration as received. -/
def InfoCallback (s : Node) (camera_info : CameraInfo) : Node :=
  { s with camera_info_ := camera_info, has_camera_info_ := true }

/-- The marker built in iteration `i` of the loop at lines 126-167 from the pose of the
detection. -/
def makeMarker (X : Extern) (s : Node) (detection : TagDetection) (i : Nat)
    (pose : Matrix (Fin 4) (Fin 4) ℚ) : Marker :=
  let R : Matrix (Fin 3) (Fin 3) ℚ :=
    !![pose 0 0, pose 0 1, pose 0 2;
       pose 1 0, pose 1 1, pose 1 2;
       pose 2 0, pose 2 1, pose 2 2]
  let q := X.quaternion R
  let tag_size := (GetTagSize s detection.id).1
  { frame_id := s.frame_
    stamp := X.now i
    ns := "tag" ++ toString detection.id
    id := detection.id
    type := MarkerShape.ARROW
    action := MarkerAction.ADD
    position := ⟨pose 0 3, pose 1 3, pose 2 3⟩
    orientation := ⟨q.x, q.y, q.z, q.w⟩
    scale := ⟨tag_size, tag_size * 5, tag_size⟩
    color := ⟨1, 0, 1, 1⟩ }

/-- The loop at lines 126-167, from index `i` on: one pose solve and one `push_back` per
remaining detection. -/
def markerLoop (X : Extern) :
    Node → List TagDetection → Nat → List Marker → List Marker × Node
  | s, [], _, marker_transforms => (marker_transforms, s)
  | s, detection :: rest, i, marker_transforms =>
    let r := GetDetectionTransform X s detection
    let marker_transform := makeMarker X r.2 detection i r.1
    markerLoop X r.2 rest (i + 1) (marker_transforms ++ [marker_transform])

/-- Function `ImageCallback` (lines 94-174). -/
def ImageCallback (X : Extern) (s : Node) (msg : Image) : Node :=
  if !s.has_camera_info_ then
    s.emit (Event.ROS_WARN "No Camera Info Received Yet")
  else
    match X.toCvCopy msg "mono8" with
    | none => s.emit (Event.ROS_ERROR "cv_bridge exception: %s")
    | some subscribed_ptr =>
      let opticalCenter : Point2d := ⟨0.5 * subscribed_ptr.rows, 0.5 * subscribed_ptr.cols⟩
      let detections := X.process subscribed_ptr opticalCenter
      let s1 := s.emit (Event.process subscribed_ptr opticalCenter)
      let subscribed_gray :=
        if s1.viewer_ ≠ 0 then X.superimposeDetections subscribed_ptr detections
        else subscribed_ptr
      let r := markerLoop X s1 detections 0 []
      let s2 := r.2.emit (Event.publish r.1)
      if s2.viewer_ ≠ 0 then s2.emit (Event.imshow "AprilTags" subscribed_gray) else s2

/-! ## Demand-driven subscription -/

/-- Assignment of a fresh subscription to the image handle (lines 190-192): the transport
creates a subscription; the handle that is overwritten releases the one it held. -/
def Node.subscribeImage (s : Node) : Node :=
  { s with
    image_live := s.image_live + 1 - (if s.image_subscriber then 1 else 0)
    image_subscriber := true
    log := s.log ++ [Event.subscribe Stream.image 1] }

/-- Assignment of a fresh subscription to the calibration handle (lines 193-194). -/
def Node.subscribeInfo (s : Node) : Node :=
  { s with
    info_live := s.info_live + 1 - (if s.info_subscriber then 1 else 0)
    info_subscriber := true
    log := s.log ++ [Event.subscribe Stream.camera_info 10] }

/-- Call `image_subscriber.shutdown()` (line 212): releases the subscription the handle holds,
if any. -/
def Node.shutdownImage (s : Node) : Node :=
  { s with
    image_live := s.image_live - (if s.image_subscriber then 1 else 0)
    image_subscriber := false
    log := s.log ++ [Event.shutdown Stream.image] }

/-- Call `info_subscriber.shutdown()` (line 213). -/
def Node.shutdownInfo (s : Node) : Node :=
  { s with
    info_live := s.info_live - (if s.info_subscriber then 1 else 0)
    info_subscriber := false
    log := s.log ++ [Event.shutdown Stream.camera_info] }

/-- Function `ConnectCallback` (lines 176-197); `subscribers` is the value read from
`getNumSubscribers()`. -/
def ConnectCallback (s : Node) (subscribers : Nat) : Node :=
  let s0 := s.emit (Event.ROS_DEBUG "Subscription detected! (%d subscribers)")
  if subscribers ≠ 0 && !s0.running_ then
    let s1 := s0.emit (Event.ROS_DEBUG "New Subscribers, Connecting to Input Image Topic.")
    let s2 := s1.subscribeImage
    let s3 := s2.subscribeInfo
    { s3 with running_ := true }
  else s0

/-- Function `DisconnectCallback` (lines 203-216). -/
def DisconnectCallback (s : Node) (subscribers : Nat) : Node :=
  let s0 := s.emit (Event.ROS_DEBUG "Unsubscription detected! (%d subscribers)")
  if subscribers = 0 && s0.running_ then
    let s1 := s0.emit (Event.ROS_DEBUG "No Subscribers, Disconnecting from Input Image Topic.")
    let s2 := s1.shutdownImage
    let s3 := s2.shutdownInfo
    { s3 with running_ := false }
  else s0

/-- A notification from the marker publisher, with the consumer count observed. -/
inductive Notification where
  | connect (subscribers : Nat)
  | disconnect (subscribers : Nat)
deriving DecidableEq

/-- Dispatch of one notification to its callback. -/
def notify (s : Node) : Notification → Node
  | Notification.connect n => ConnectCallback s n
  | Notification.disconnect n => DisconnectCallback s n

/-- A finite sequence of notifications, delivered one after the other. -/
def notifyAll (s : Node) (ns : List Notification) : Node := ns.foldl notify s

/-- A sequence of frames, delivered one after the other. -/
def frames (X : Extern) (s : Node) (msgs : List Image) : Node := msgs.foldl (ImageCallback X) s

/-! ## Observations on the log -/

/-- The batches published, oldest first. -/
def published : List Event → List (List Marker)
  | [] => []
  | Event.publish markers :: rest => markers :: published rest
  | _ :: rest => published rest

/-- The warnings logged, oldest first. -/
def warnings : List Event → List String
  | [] => []
  | Event.ROS_WARN text :: rest => text :: warnings rest
  | _ :: rest => warnings rest

/-- The subscribe and shutdown actions taken, oldest first. -/
def transport : List Event → List (Bool × Stream)
  | [] => []
  | Event.subscribe stream _ :: rest => (true, stream) :: transport rest
  | Event.shutdown stream :: rest => (false, stream) :: transport rest
  | _ :: rest => transport rest

/-- The correspondences handed to the pose solver, oldest first. -/
def solverCalls : List Event → List (List Point3f × List Point2f)
  | [] => []
  | Event.solvePnP object_pts image_pts _ _ :: rest =>
      (object_pts, image_pts) :: solverCalls rest
  | _ :: rest => solverCalls rest

/-- The number of detector invocations. -/
def detectorCalls : List Event → Nat
  | [] => 0
  | Event.process _ _ :: rest => detectorCalls rest + 1
  | _ :: rest => detectorCalls rest

/-! ## Parameter loading -/

/-- A value of the parameter server, `XmlRpc::XmlRpcValue`; a struct lists its members in
iteration order. -/
inductive XmlRpcValue where
  | TypeInvalid
  | TypeBoolean (b : Bool)
  | TypeInt (i : Int)
  | TypeDouble (d : ℚ)
  | TypeString (text : String)
  | TypeDateTime
  | TypeBase64
  | TypeArray (items : List XmlRpcValue)
  | TypeStruct (members : List (String × XmlRpcValue))

/-- The exceptions that can leave `GetParameterValues`. -/
inductive Raised where
  | bad_lexical_cast
  | XmlRpcException
deriving DecidableEq

/-- The members iterated by `begin()`/`end()`: an invalid value turns into an empty struct,
a value of any other non-struct type throws. -/
def XmlRpcValue.entries : XmlRpcValue → Except Raised (List (String × XmlRpcValue))
  | XmlRpcValue.TypeInvalid => Except.ok []
  | XmlRpcValue.TypeStruct members => Except.ok members
  | _ => Except.error Raised.XmlRpcException

/-- Member test `hasMember(name)`: the value is a struct and has a member of that name. -/
def XmlRpcValue.hasMember : XmlRpcValue → String → Bool
  | XmlRpcValue.TypeStruct members, name => (members.lookup name).isSome
  | _, _ => false

/-- Access `value[name]` on a struct that has the member. -/
def XmlRpcValue.member : XmlRpcValue → String → XmlRpcValue
  | XmlRpcValue.TypeStruct members, name => (members.lookup name).getD XmlRpcValue.TypeInvalid
  | _, _ => XmlRpcValue.TypeInvalid

/-- Conversion `static_cast<double>(value)`: the stored double; an invalid value reads as `0`; any
other type throws. -/
def XmlRpcValue.asDouble : XmlRpcValue → Except Raised ℚ
  | XmlRpcValue.TypeDouble d => Except.ok d
  | XmlRpcValue.TypeInvalid => Except.ok 0
  | _ => Except.error Raised.XmlRpcException

/-- The private parameters of the node as found on the parameter server. -/
structure Params where
  viewer : Option Int
  tag_family : Option String
  default_tag_size : Option ℚ
  tf_frame : Option String
  tag_data : Option XmlRpcValue

/-- The defaults named in `apriltags.h`. -/
structure Defaults where
  DEFAULT_TAG_FAMILY : String
  DEFAULT_TAG_SIZE : ℚ
  DEFAULT_TF_FRAME : String

/-- The loop at lines 232-244 over the remaining entries of `tag_data`. -/
def loadTags (X : Extern) : Node → List (String × XmlRpcValue) → Except Raised Node
  | s, [] => Except.ok s
  | s, (key, tag_values) :: rest =>
    match X.lexical_cast key with
    | none => Except.error Raised.bad_lexical_cast
    | some tag_id =>
      if tag_values.hasMember "size" then
        match (tag_values.member "size").asDouble with
        | Except.error e => Except.error e
        | Except.ok size =>
          let s1 := { s with tag_sizes_ := Function.update s.tag_sizes_ (toSizeT tag_id) size }
          loadTags X (s1.emit (Event.ROS_DEBUG "Setting tag%d to size %f m.")) rest
      else loadTags X s rest

/-- An entry the loop gets through: its key converts to an `int` and, when it has a `size`
member, that member reads as a double. -/
def entryOk (X : Extern) (e : String × XmlRpcValue) : Bool :=
  (X.lexical_cast e.1).isSome &&
    (!e.2.hasMember "size" ||
      match (e.2.member "size").asDouble with
      | Except.ok _ => true
      | Except.error _ => false)

/-- Function `GetParameterValues` (lines 218-245). -/
def GetParameterValues (X : Extern) (D : Defaults) (P : Params) (s : Node) :
    Except Raised Node :=
  let s1 := { s with
    viewer_ := P.viewer.getD 0
    tag_family_name_ := P.tag_family.getD D.DEFAULT_TAG_FAMILY
    default_tag_size_ := P.default_tag_size.getD D.DEFAULT_TAG_SIZE
    frame_ := P.tf_frame.getD D.DEFAULT_TF_FRAME }
  let tag_data := P.tag_data.getD XmlRpcValue.TypeInvalid
  match tag_data.entries with
  | Except.error e => Except.error e
  | Except.ok entries => loadTags X s1 entries

/-! ## Fixtures: a deterministic stand-in for the libraries -/

/-- Value of a non-empty string of decimal digits, most significant first. -/
def digitsValue : List Char → Nat → Option Nat
  | [], _ => none
  | [c], acc => if c.isDigit then some (acc * 10 + (c.toNat - 48)) else none
  | c :: d :: rest, acc =>
    if c.isDigit then digitsValue (d :: rest) (acc * 10 + (c.toNat - 48)) else none

/-- Conversion of text to `int` the way `boost::lexical_cast<int>` does it: an optional
sign, then digits only, and the value has to fit 32 bits. -/
def lexicalCastInt (text : String) : Option Int :=
  match text.data with
  | '-' :: ds =>
    (digitsValue ds 0).bind fun n => if n ≤ 2 ^ 31 then some (-(n : Int)) else none
  | '+' :: ds =>
    (digitsValue ds 0).bind fun n => if n < 2 ^ 31 then some (n : Int) else none
  | ds =>
    (digitsValue ds 0).bind fun n => if n < 2 ^ 31 then some (n : Int) else none

/-- Whether three image points lie on one line. -/
def collinear (a b c : Point2f) : Bool :=
  decide ((b.x - a.x) * (c.y - a.y) = (b.y - a.y) * (c.x - a.x))

/-- A stand-in pose solver: it reports failure on correspondences whose first three image
points are collinear (leaving zero vectors), and otherwise places the tag at the first
image point, at depth one. -/
def fakeSolvePnP (_ : List Point3f) (image : List Point2f) (_ : Matrix (Fin 3) (Fin 3) ℚ)
    (_ : Fin 4 → ℚ) : Bool × (Fin 3 → ℚ) × (Fin 3 → ℚ) :=
  match image with
  | a :: b :: c :: _ =>
    if collinear a b c then (false, ![0, 0, 0], ![0, 0, 0]) else (true, ![0, 0, 0], ![a.x, a.y, 1])
  | _ => (false, ![0, 0, 0], ![0, 0, 0])

/-- A stand-in for the libraries, around a detector that reports the given detections. -/
def fakeExtern (detections : List TagDetection) : Extern where
  toCvCopy := fun msg _ => some ⟨msg.height, msg.width, msg.data⟩
  process := fun _ _ => detections
  superimposeDetections := fun image _ => image
  solvePnP := fakeSolvePnP
  Rodrigues := fun _ => 1
  quaternion := fun _ => ⟨0, 0, 0, 1⟩
  now := fun i => i
  lexical_cast := lexicalCastInt

/-- The node as `main` leaves it before spinning: nothing configured, idle, uncalibrated. -/
def idleNode : Node where
  tag_sizes_ := fun _ => none
  default_tag_size_ := 1 / 10
  camera_info_ := ⟨0, 0, fun _ => 0⟩
  has_camera_info_ := false
  running_ := false
  viewer_ := 0
  tag_family_name_ := "Tag36h11"
  frame_ := "camera"
  image_subscriber := false
  info_subscriber := false
  image_live := 0
  info_live := 0
  log := []

/-- The idle node configured with default size 0.1 and tag 5 overridden to 0.2. -/
def sizedNode : Node :=
  { idleNode with tag_sizes_ := Function.update (fun _ => none) 5 (some (1 / 5)) }

/-- The defaults used in the examples. -/
def sampleDefaults : Defaults := ⟨"Tag36h11", 1 / 10, "camera"⟩

/-- Parameters whose `tag_data` is the struct with the given members. -/
def paramsWith (members : List (String × XmlRpcValue)) : Params :=
  ⟨none, none, none, none, some (XmlRpcValue.TypeStruct members)⟩

/-- The `tag_data` entry `key: {size: d}`. -/
def sizeEntry (key : String) (d : ℚ) : String × XmlRpcValue :=
  (key, XmlRpcValue.TypeStruct [("size", XmlRpcValue.TypeDouble d)])

/-- A calibration message. -/
def sampleInfo : CameraInfo := ⟨480, 640, ![500, 0, 320, 0, 500, 240, 0, 0, 1]⟩

/-- The configured node after the calibration message has arrived. -/
def calibratedNode : Node :=
  { sizedNode with camera_info_ := sampleInfo, has_camera_info_ := true }

/-- A frame. -/
def sampleFrame : Image := ⟨480, 640, "mono8", []⟩

/-- A detection of tag `id` whose corners form an axis-parallel square. -/
def squareDetection (id : Int) : TagDetection :=
  ⟨id, ![⟨300, 220⟩, ⟨340, 220⟩, ⟨340, 260⟩, ⟨300, 260⟩]⟩

/-- A detection of tag `id` whose first three corners lie on one line. -/
def collinearDetection (id : Int) : TagDetection :=
  ⟨id, ![⟨100, 100⟩, ⟨120, 120⟩, ⟨140, 140⟩, ⟨100, 140⟩]⟩

/-! ## Derived descriptions used in the statements -/

/-- The solver call made for a detection in node `s`. -/
def solveEvent (s : Node) (detection : TagDetection) : Event :=
  Event.solvePnP (object_pts ((GetTagSize s detection.id).1 / 2)) (image_pts detection)
    (intrinsics s.camera_info_) dist_param

/-- The markers of the detections, the first one built in iteration `i`. -/
def markersFrom (X : Extern) (s : Node) : List TagDetection → Nat → List Marker
  | [], _ => []
  | detection :: rest, i =>
    makeMarker X s detection i (GetDetectionTransform X s detection).1 ::
      markersFrom X s rest (i + 1)

/-- The handles hold a subscription exactly while the node is running, and the transport
holds, per stream, one subscription while running and none otherwise. -/
def Synced (s : Node) : Prop :=
  s.image_subscriber = s.running_ ∧ s.info_subscriber = s.running_ ∧
  s.image_live = (if s.running_ then 1 else 0) ∧ s.info_live = (if s.running_ then 1 else 0)

instance (s : Node) : Decidable (Synced s) := by
  unfold Synced
  infer_instance

/-! ## Lemmas on the log observers -/

theorem published_append (l₁ l₂ : List Event) :
    published (l₁ ++ l₂) = published l₁ ++ published l₂ := by
  induction l₁ with
  | nil => rfl
  | cons e rest ih => cases e <;> simp [published, ih]

theorem warnings_append (l₁ l₂ : List Event) :
    warnings (l₁ ++ l₂) = warnings l₁ ++ warnings l₂ := by
  induction l₁ with
  | nil => rfl
  | cons e rest ih => cases e <;> simp [warnings, ih]

theorem transport_append (l₁ l₂ : List Event) :
    transport (l₁ ++ l₂) = transport l₁ ++ transport l₂ := by
  induction l₁ with
  | nil => rfl
  | cons e rest ih => cases e <;> simp [transport, ih]

theorem solverCalls_append (l₁ l₂ : List Event) :
    solverCalls (l₁ ++ l₂) = solverCalls l₁ ++ solverCalls l₂ := by
  induction l₁ with
  | nil => rfl
  | cons e rest ih => cases e <;> simp [solverCalls, ih]

theorem detectorCalls_append (l₁ l₂ : List Event) :
    detectorCalls (l₁ ++ l₂) = detectorCalls l₁ + detectorCalls l₂ := by
  induction l₁ with
  | nil => simp [detectorCalls]
  | cons e rest ih => cases e <;> simp [detectorCalls, ih]; omega

/-- On ids that are not negative and fit 64 bits the key is the id itself. -/
theorem toSizeT_of_nonneg (i : Int) (h0 : 0 ≤ i) (h1 : i < 2 ^ 64) : (toSizeT i : Int) = i := by
  unfold toSizeT
  rw [Int.emod_eq_of_lt h0 h1]
  exact Int.toNat_of_nonneg h0

/-- On the range of a 32-bit `int` the conversion to the key type loses nothing. -/
theorem toSizeT_injective (i j : Int) (hi : -2 ^ 31 ≤ i ∧ i < 2 ^ 31)
    (hj : -2 ^ 31 ≤ j ∧ j < 2 ^ 31) (h : toSizeT i = toSizeT j) : i = j := by
  unfold toSizeT at h
  omega

/-! ## Tag sizes -/

theorem GetTagSize_of_some (s : Node) (tag_id : Int) (size : ℚ)
    (h : s.tag_sizes_ (toSizeT tag_id) = some size) : GetTagSize s tag_id = (size, s) := by
  simp [GetTagSize, h]

theorem GetTagSize_of_none (s : Node) (tag_id : Int)
    (h : s.tag_sizes_ (toSizeT tag_id) = none) :
    GetTagSize s tag_id = (s.default_tag_size_, s) := by
  simp [GetTagSize, h]

theorem GetTagSize_snd (s : Node) (tag_id : Int) : (GetTagSize s tag_id).2 = s := by
  unfold GetTagSize
  cases s.tag_sizes_ (toSizeT tag_id) <;> rfl

/-- C1: for every node state and every tag id, `GetTagSize` returns the size stored under
the id (converted to the key type of the map) when there is one, returns exactly
`default_tag_size_` when there is none, always returns (it is total) and hands back the
node, mapping and default included, unchanged. -/
theorem GetTagSize_lookup_or_default (s : Node) (tag_id : Int) :
    (∀ size, s.tag_sizes_ (toSizeT tag_id) = some size → (GetTagSize s tag_id).1 = size) ∧
    (s.tag_sizes_ (toSizeT tag_id) = none → (GetTagSize s tag_id).1 = s.default_tag_size_) ∧
    (GetTagSize s tag_id).2 = s ∧
    (GetTagSize s tag_id).2.tag_sizes_ = s.tag_sizes_ ∧
    (GetTagSize s tag_id).2.default_tag_size_ = s.default_tag_size_ := by
  refine ⟨fun size h => ?_, fun h => ?_, GetTagSize_snd s tag_id, ?_, ?_⟩
  · rw [GetTagSize_of_some s tag_id size h]
  · rw [GetTagSize_of_none s tag_id h]
  · rw [GetTagSize_snd]
  · rw [GetTagSize_snd]

/-- Witness for C1: with tag 5 stored as 0.2 and default 0.1, tag 5 resolves to 0.2 and
tag 6 to 0.1. -/
theorem GetTagSize_lookup_or_default_witness :
    (GetTagSize sizedNode 5).1 = 1 / 5 ∧ (GetTagSize sizedNode 6).1 = 1 / 10 :=
  ⟨(GetTagSize_lookup_or_default sizedNode 5).1 (1 / 5) rfl,
   (GetTagSize_lookup_or_default sizedNode 6).2.1 rfl⟩

/-! ## Pose correspondences -/

theorem toFloat_neg (x : ℚ) : toFloat (-x) = -toFloat x := by
  unfold toFloat
  rw [Rat.neg_num, Rat.neg_den, Int.natAbs_neg]
  rcases lt_trichotomy x.num 0 with h | h | h
  · have h2 : ¬ (-x.num < 0) := by omega
    simp [h, h2]
  · have hm : floatMagnitude 0 x.den = 0 := by
      have hd : 0 < x.den := x.den_pos
      simp [floatMagnitude, hd, roundHalfEven]
    simp [h, hm]
  · have h2 : ¬ (x.num < 0) := by omega
    have h3 : -x.num < 0 := by omega
    simp [h2, h3]

theorem floatMagnitude_tenth : floatMagnitude 1 10 = 13421773 / 134217728 := by
  have hs : shiftsUp 126 1 10 = 4 := by decide
  have hr : roundHalfEven (1 * 2 ^ (23 + 4)) 10 = 13421773 := by decide
  have hlt : (1 : Nat) < 10 := by decide
  simp only [floatMagnitude, hlt, if_true, hs, hr]
  norm_num

/-- The `float` nearest to 0.1. -/
theorem toFloat_tenth : toFloat (1 / 10) = 13421773 / 134217728 := by
  have hn : ((1 : ℚ) / 10).num = 1 := by norm_num
  have hd : ((1 : ℚ) / 10).den = 10 := by norm_num
  unfold toFloat
  rw [hn, hd]
  simp [floatMagnitude_tenth]

theorem floatMagnitude_twentieth : floatMagnitude 1 20 = 13421773 / 268435456 := by
  have hs : shiftsUp 126 1 20 = 5 := by decide
  have hr : roundHalfEven (1 * 2 ^ (23 + 5)) 20 = 13421773 := by decide
  have hlt : (1 : Nat) < 20 := by decide
  simp only [floatMagnitude, hlt, if_true, hs, hr]
  norm_num

/-- The `float` nearest to 0.05. -/
theorem toFloat_twentieth : toFloat (1 / 20) = 13421773 / 268435456 := by
  have hn : ((1 : ℚ) / 20).num = 1 := by norm_num
  have hd : ((1 : ℚ) / 20).den = 20 := by norm_num
  unfold toFloat
  rw [hn, hd]
  simp [floatMagnitude_twentieth]

/-- The object points are the narrowed half side with the signs of the four corners. -/
theorem object_pts_eq (tag_radius : ℚ) :
    object_pts tag_radius =
      [⟨-toFloat tag_radius, -toFloat tag_radius, 0⟩, ⟨toFloat tag_radius, -toFloat tag_radius, 0⟩,
       ⟨toFloat tag_radius, toFloat tag_radius, 0⟩, ⟨-toFloat tag_radius, toFloat tag_radius, 0⟩] := by
  simp only [object_pts, toFloat_neg]

/-- The one solver call `GetDetectionTransform` adds to the log. -/
theorem solverCalls_GetDetectionTransform (X : Extern) (s : Node) (detection : TagDetection) :
    solverCalls (GetDetectionTransform X s detection).2.log =
      solverCalls s.log ++
        [(object_pts ((GetTagSize s detection.id).1 / 2), image_pts detection)] := by
  simp only [GetDetectionTransform, Node.emit, solverCalls_append, solverCalls]

/-- C2 fails as stated: with default size 0.1 and tag 5 overridden to 0.2, the half side is
`h = 0.1`, but the object points handed to the solver for a detection of tag 5 carry the
`float` nearest to it, `13421773 / 2^27 = 0.100000001490116...`, so the correspondences are
not `(-h,-h,0), (h,-h,0), (h,h,0), (-h,h,0)` with `h = GetTagSize(5) / 2`. -/
theorem correspondences_narrowed_to_float :
    (GetTagSize sizedNode (squareDetection 5).id).1 / 2 = 1 / 10 ∧
    solverCalls (GetDetectionTransform (fakeExtern []) sizedNode (squareDetection 5)).2.log =
      [([⟨-(13421773 / 134217728), -(13421773 / 134217728), 0⟩,
         ⟨13421773 / 134217728, -(13421773 / 134217728), 0⟩,
         ⟨13421773 / 134217728, 13421773 / 134217728, 0⟩,
         ⟨-(13421773 / 134217728), 13421773 / 134217728, 0⟩],
        [⟨300, 220⟩, ⟨340, 220⟩, ⟨340, 260⟩, ⟨300, 260⟩])] ∧
    solverCalls (GetDetectionTransform (fakeExtern []) sizedNode (squareDetection 5)).2.log ≠
      solverCalls sizedNode.log ++
        [([⟨-(1 / 10), -(1 / 10), 0⟩, ⟨1 / 10, -(1 / 10), 0⟩, ⟨1 / 10, 1 / 10, 0⟩,
           ⟨-(1 / 10), 1 / 10, 0⟩],
          [(squareDetection 5).p 0, (squareDetection 5).p 1, (squareDetection 5).p 2,
           (squareDetection 5).p 3])] := by
  have hh : (GetTagSize sizedNode (squareDetection 5).id).1 / 2 = 1 / 10 := by
    rw [show (squareDetection 5).id = 5 from rfl, GetTagSize_of_some sizedNode 5 (1 / 5) rfl]
    norm_num
  have hcalls :
      solverCalls (GetDetectionTransform (fakeExtern []) sizedNode (squareDetection 5)).2.log =
        [([⟨-(13421773 / 134217728), -(13421773 / 134217728), 0⟩,
           ⟨13421773 / 134217728, -(13421773 / 134217728), 0⟩,
           ⟨13421773 / 134217728, 13421773 / 134217728, 0⟩,
           ⟨-(13421773 / 134217728), 13421773 / 134217728, 0⟩],
          [⟨300, 220⟩, ⟨340, 220⟩, ⟨340, 260⟩, ⟨300, 260⟩])] := by
    rw [solverCalls_GetDetectionTransform, hh, object_pts_eq, toFloat_tenth]
    rfl
  refine ⟨hh, hcalls, ?_⟩
  rw [hcalls]
  intro h
  have hx := congrArg (fun l => (l.head?.map fun c => c.1.head?.map fun q => q.x)) h
  simp [sizedNode, idleNode, solverCalls] at hx
  norm_num at hx

/-- C2 as amended: for every detection, `GetDetectionTransform` makes exactly one call to
the pose solver, on the correspondences `(-f,-f,0) <-> p[0]`, `(f,-f,0) <-> p[1]`,
`(f,f,0) <-> p[2]`, `(-f,f,0) <-> p[3]`, where `f` is the half side
`h = GetTagSize(id) / 2` narrowed to `float`: four points on the plane `z = 0`, centred on
the origin, in the detection's corner order, and equal to `(-h,-h,0), ...` whenever `h` is
itself a `float`. The returned transform is assembled from what the solver answers on them.
With default size 0.1 and tag 5 overridden to 0.2, a detection of tag 5 gets the `float`
nearest to 0.1 (side 0.2), not the `float` nearest to 0.05 (side 0.1). -/
theorem GetDetectionTransform_narrowed_correspondences (X : Extern) (s : Node)
    (detection : TagDetection) :
    let h := (GetTagSize s detection.id).1 / 2
    let f := toFloat h
    let object : List Point3f := [⟨-f, -f, 0⟩, ⟨f, -f, 0⟩, ⟨f, f, 0⟩, ⟨-f, f, 0⟩]
    let image : List Point2f := [detection.p 0, detection.p 1, detection.p 2, detection.p 3]
    solverCalls (GetDetectionTransform X s detection).2.log =
      solverCalls s.log ++ [(object, image)] ∧
    (GetDetectionTransform X s detection).1 =
      assemble (X.Rodrigues (X.solvePnP object image (intrinsics s.camera_info_) dist_param).2.1)
        (X.solvePnP object image (intrinsics s.camera_info_) dist_param).2.2 ∧
    (toFloat h = h →
      object = [⟨-h, -h, 0⟩, ⟨h, -h, 0⟩, ⟨h, h, 0⟩, ⟨-h, h, 0⟩] ∧
      h - -h = (GetTagSize s detection.id).1) ∧
    (s.default_tag_size_ = 1 / 10 → s.tag_sizes_ (toSizeT 5) = some (1 / 5) →
      detection.id = 5 →
      h = 1 / 10 ∧ f = 13421773 / 134217728 ∧ f ≠ toFloat (s.default_tag_size_ / 2)) := by
  intro h f object image
  have hobj : object_pts h = object := object_pts_eq h
  refine ⟨?_, ?_, ?_, ?_⟩
  · rw [solverCalls_GetDetectionTransform, hobj]
    rfl
  · simp only [GetDetectionTransform]
    rw [hobj]
    rfl
  · intro hrep
    refine ⟨?_, by ring⟩
    simp only [object, f, hrep]
  · intro hdef hsize hid
    have hv : h = 1 / 10 := by
      simp only [h]
      rw [hid, GetTagSize_of_some s 5 _ hsize]
      norm_num
    have hf : f = 13421773 / 134217728 := by
      simp only [f, hv, toFloat_tenth]
    refine ⟨hv, hf, ?_⟩
    rw [hf, hdef, show (1 : ℚ) / 10 / 2 = 1 / 20 by norm_num, toFloat_twentieth]
    norm_num

/-- Witness for C2 as amended: in the node with default 0.1 and tag 5 overridden to 0.2, the
half side used for a detection of tag 5 is the `float` nearest to 0.1. -/
theorem GetDetectionTransform_narrowed_correspondences_witness :
    (GetTagSize sizedNode (squareDetection 5).id).1 / 2 = 1 / 10 ∧
    toFloat ((GetTagSize sizedNode (squareDetection 5).id).1 / 2) = 13421773 / 134217728 ∧
    toFloat ((GetTagSize sizedNode (squareDetection 5).id).1 / 2) ≠
      toFloat (sizedNode.default_tag_size_ / 2) :=
  (GetDetectionTransform_narrowed_correspondences (fakeExtern []) sizedNode
    (squareDetection 5)).2.2.2 rfl rfl rfl

/-! ## The marker batch of a frame -/

theorem GetTagSize_fst_log (s : Node) (l : List Event) (tag_id : Int) :
    (GetTagSize { s with log := l } tag_id).1 = (GetTagSize s tag_id).1 := by
  unfold GetTagSize
  cases h : s.tag_sizes_ (toSizeT tag_id) <;> simp [h]

theorem GetDetectionTransform_fst_log (X : Extern) (s : Node) (l : List Event)
    (detection : TagDetection) :
    (GetDetectionTransform X { s with log := l } detection).1 =
      (GetDetectionTransform X s detection).1 := by
  simp only [GetDetectionTransform, GetTagSize_fst_log]

theorem makeMarker_log (X : Extern) (s : Node) (l : List Event) (detection : TagDetection)
    (i : Nat) (pose : Matrix (Fin 4) (Fin 4) ℚ) :
    makeMarker X { s with log := l } detection i pose = makeMarker X s detection i pose := by
  simp only [makeMarker, GetTagSize_fst_log]

theorem solveEvent_log (s : Node) (l : List Event) (detection : TagDetection) :
    solveEvent { s with log := l } detection = solveEvent s detection := by
  simp only [solveEvent, GetTagSize_fst_log]

theorem solveEvent_log_fun (s : Node) (l : List Event) :
    solveEvent { s with log := l } = solveEvent s :=
  funext fun detection => solveEvent_log s l detection

theorem GetDetectionTransform_snd (X : Extern) (s : Node) (detection : TagDetection) :
    (GetDetectionTransform X s detection).2 =
      { s with log := s.log ++ [solveEvent s detection] } := rfl

theorem markersFrom_log (X : Extern) (s : Node) (l : List Event) (detections : List TagDetection)
    (i : Nat) : markersFrom X { s with log := l } detections i = markersFrom X s detections i := by
  induction detections generalizing i with
  | nil => rfl
  | cons d rest ih =>
    simp only [markersFrom, ih, GetDetectionTransform_fst_log, makeMarker_log]

theorem markerLoop_eq (X : Extern) (detections : List TagDetection) :
    ∀ (s : Node) (i : Nat) (acc : List Marker),
      markerLoop X s detections i acc =
        (acc ++ markersFrom X s detections i,
          { s with log := s.log ++ detections.map (solveEvent s) }) := by
  induction detections with
  | nil => intro s i acc; simp [markerLoop, markersFrom]
  | cons d rest ih =>
    intro s i acc
    simp only [markerLoop, ih, markersFrom, List.map_cons, GetDetectionTransform_snd,
      markersFrom_log, makeMarker_log, solveEvent_log_fun, List.append_assoc,
      List.singleton_append]

theorem markersFrom_length (X : Extern) (s : Node) (detections : List TagDetection) (i : Nat) :
    (markersFrom X s detections i).length = detections.length := by
  induction detections generalizing i with
  | nil => rfl
  | cons d rest ih => simp [markersFrom, ih]

theorem markersFrom_getElem_opt (X : Extern) (s : Node) (detections : List TagDetection)
    (i k : Nat) :
    (markersFrom X s detections i)[k]? =
      detections[k]?.map fun d => makeMarker X s d (i + k) (GetDetectionTransform X s d).1 := by
  induction detections generalizing i k with
  | nil => simp [markersFrom]
  | cons d rest ih =>
    cases k with
    | zero => simp [markersFrom]
    | succ k =>
      simp only [markersFrom, List.getElem?_cons_succ, ih]
      have : i + 1 + k = i + (k + 1) := by omega
      rw [this]

theorem markersFrom_append (X : Extern) (s : Node) (pre post : List TagDetection) (i : Nat) :
    markersFrom X s (pre ++ post) i =
      markersFrom X s pre i ++ markersFrom X s post (i + pre.length) := by
  induction pre generalizing i with
  | nil => simp [markersFrom]
  | cons d rest ih =>
    have : i + 1 + rest.length = i + (rest.length + 1) := by omega
    rw [List.cons_append]
    simp only [markersFrom, ih, List.length_cons, this, List.cons_append]

theorem published_map_solveEvent (s : Node) (detections : List TagDetection) :
    published (detections.map (solveEvent s)) = [] := by
  induction detections with
  | nil => rfl
  | cons d rest ih => simpa [solveEvent, published] using ih

/-- The effects of a calibrated frame, when the conversion gives `image`: one detector
call, one solver call per detection, one publish of the whole batch, and the display when
the viewer is on. -/
theorem ImageCallback_calibrated_log (X : Extern) (s : Node) (msg : Image) (image : Mat)
    (hcal : s.has_camera_info_ = true) (hcv : X.toCvCopy msg "mono8" = some image) :
    (ImageCallback X s msg).log =
      s.log ++ [Event.process image ⟨0.5 * image.rows, 0.5 * image.cols⟩] ++
        (X.process image ⟨0.5 * image.rows, 0.5 * image.cols⟩).map (solveEvent s) ++
        [Event.publish (markersFrom X s (X.process image ⟨0.5 * image.rows, 0.5 * image.cols⟩) 0)]
        ++ (if s.viewer_ ≠ 0 then
              [Event.imshow "AprilTags"
                (X.superimposeDetections image
                  (X.process image ⟨0.5 * image.rows, 0.5 * image.cols⟩))]
            else []) := by
  unfold ImageCallback
  simp only [hcal, hcv, Bool.not_true, Bool.false_eq_true, if_false]
  rw [markerLoop_eq]
  simp only [Node.emit, markersFrom_log, solveEvent_log_fun, List.nil_append]
  split <;> simp

/-- The batch a calibrated frame publishes, when the conversion gives `image`. -/
theorem ImageCallback_calibrated (X : Extern) (s : Node) (msg : Image) (image : Mat)
    (hcal : s.has_camera_info_ = true) (hcv : X.toCvCopy msg "mono8" = some image) :
    published (ImageCallback X s msg).log = published s.log ++
      [markersFrom X s (X.process image ⟨0.5 * image.rows, 0.5 * image.cols⟩) 0] := by
  rw [ImageCallback_calibrated_log X s msg image hcal hcv]
  simp only [published_append, published_map_solveEvent, published, List.append_nil]
  split <;> simp [published]

/-- C3: when calibration has been received and the frame converts, `ImageCallback` adds
exactly one publish to the log; the batch has one marker per detection, in detection order;
the `k`-th marker has the id of the `k`-th detection, namespace `"tag"` followed by the
decimal id, position equal to the translation column of the detection's transform and scale
`(s, 5*s, s)` with `s = GetTagSize(id)`; with no detections the batch is empty. -/
theorem ImageCallback_publishes_one_batch (X : Extern) (s : Node) (msg : Image) (image : Mat)
    (hcal : s.has_camera_info_ = true) (hcv : X.toCvCopy msg "mono8" = some image) :
    ∃ batch : List Marker,
      published (ImageCallback X s msg).log = published s.log ++ [batch] ∧
      batch.length = (X.process image ⟨0.5 * image.rows, 0.5 * image.cols⟩).length ∧
      (∀ (k : Nat) (d : TagDetection),
        (X.process image ⟨0.5 * image.rows, 0.5 * image.cols⟩)[k]? = some d →
        ∃ m : Marker, batch[k]? = some m ∧ m.id = d.id ∧ m.ns = "tag" ++ toString d.id ∧
          m.position = ⟨(GetDetectionTransform X s d).1 0 3, (GetDetectionTransform X s d).1 1 3,
            (GetDetectionTransform X s d).1 2 3⟩ ∧
          m.scale = ⟨(GetTagSize s d.id).1, 5 * (GetTagSize s d.id).1, (GetTagSize s d.id).1⟩) ∧
      (X.process image ⟨0.5 * image.rows, 0.5 * image.cols⟩ = [] → batch = []) := by
  refine ⟨_, ImageCallback_calibrated X s msg image hcal hcv, markersFrom_length X s _ 0, ?_, ?_⟩
  · intro k d hk
    refine ⟨makeMarker X s d (0 + k) (GetDetectionTransform X s d).1, ?_, rfl, rfl, rfl, ?_⟩
    · rw [markersFrom_getElem_opt, hk]
      rfl
    · simp only [makeMarker, mul_comm]
  · intro hnil
    rw [hnil]
    rfl

/-- Witness for C3: a calibrated frame with two detections publishes one batch of two
markers. -/
theorem ImageCallback_publishes_one_batch_witness :
    ∃ batch : List Marker,
      published
        (ImageCallback (fakeExtern [squareDetection 5, squareDetection 7]) calibratedNode
          sampleFrame).log = published calibratedNode.log ++ [batch] ∧
      batch.length = 2 :=
  let ⟨batch, hpub, hlen, _⟩ :=
    ImageCallback_publishes_one_batch (fakeExtern [squareDetection 5, squareDetection 7])
      calibratedNode sampleFrame ⟨480, 640, []⟩ rfl rfl
  ⟨batch, hpub, hlen⟩

/-- C4 fails as stated: in a calibrated frame with detections 3, 7, 9 where the solver
reports failure on detection 7 (three collinear corners), the published batch still holds
a marker for tag 7, between those of tags 3 and 9. -/
theorem degenerate_detection_still_published :
    ((fakeExtern []).solvePnP
        (object_pts ((GetTagSize calibratedNode (collinearDetection 7).id).1 / 2))
        (image_pts (collinearDetection 7)) (intrinsics calibratedNode.camera_info_)
        dist_param).1 = false ∧
    (published
        (ImageCallback
          (fakeExtern [squareDetection 3, collinearDetection 7, squareDetection 9])
          calibratedNode sampleFrame).log).map (List.map Marker.id) = [[3, 7, 9]] := by
  constructor
  · simp [fakeExtern, fakeSolvePnP, image_pts, collinearDetection, collinear]
  · rw [ImageCallback_calibrated _ calibratedNode sampleFrame ⟨480, 640, []⟩ rfl rfl]
    rfl

/-- C4 as amended: for every calibrated frame and every way of splitting its detections
around one detection `d` (degenerate or not, whatever status the solver reports for it),
the single batch published is the markers of the detections before `d`, then the marker
of `d` itself, carrying the translation the solver left, then the markers of the
detections after `d`: nothing is skipped and nothing is aborted. -/
theorem ImageCallback_marker_for_every_detection (X : Extern) (s : Node) (msg : Image)
    (image : Mat) (pre post : List TagDetection) (d : TagDetection)
    (hcal : s.has_camera_info_ = true) (hcv : X.toCvCopy msg "mono8" = some image)
    (hdet : X.process image ⟨0.5 * image.rows, 0.5 * image.cols⟩ = pre ++ d :: post) :
    published (ImageCallback X s msg).log = published s.log ++
      [markersFrom X s pre 0 ++
        makeMarker X s d pre.length (GetDetectionTransform X s d).1 ::
          markersFrom X s post (pre.length + 1)] ∧
    (makeMarker X s d pre.length (GetDetectionTransform X s d).1).id = d.id ∧
    (makeMarker X s d pre.length (GetDetectionTransform X s d).1).position =
      ⟨(X.solvePnP (object_pts ((GetTagSize s d.id).1 / 2)) (image_pts d)
          (intrinsics s.camera_info_) dist_param).2.2 0,
        (X.solvePnP (object_pts ((GetTagSize s d.id).1 / 2)) (image_pts d)
          (intrinsics s.camera_info_) dist_param).2.2 1,
        (X.solvePnP (object_pts ((GetTagSize s d.id).1 / 2)) (image_pts d)
          (intrinsics s.camera_info_) dist_param).2.2 2⟩ ∧
    (markersFrom X s pre 0 ++
        makeMarker X s d pre.length (GetDetectionTransform X s d).1 ::
          markersFrom X s post (pre.length + 1)).length = pre.length + 1 + post.length := by
  refine ⟨?_, rfl, rfl, ?_⟩
  · rw [ImageCallback_calibrated X s msg image hcal hcv, hdet, markersFrom_append]
    simp only [markersFrom, Nat.zero_add]
  · simp only [List.length_append, List.length_cons, markersFrom_length]
    omega

/-- Witness for C4 as amended: the frame with detections 3, 7 (degenerate), 9. -/
theorem ImageCallback_marker_for_every_detection_witness :
    (makeMarker (fakeExtern [squareDetection 3, collinearDetection 7, squareDetection 9])
      calibratedNode (collinearDetection 7) 1
      (GetDetectionTransform
        (fakeExtern [squareDetection 3, collinearDetection 7, squareDetection 9])
        calibratedNode (collinearDetection 7)).1).id = 7 :=
  (ImageCallback_marker_for_every_detection
    (fakeExtern [squareDetection 3, collinearDetection 7, squareDetection 9]) calibratedNode
    sampleFrame ⟨480, 640, []⟩ [squareDetection 3] [squareDetection 9] (collinearDetection 7)
    rfl rfl rfl).2.1

/-! ## Frames before calibration -/

theorem ImageCallback_uncalibrated_eq (X : Extern) (s : Node) (msg : Image)
    (h : s.has_camera_info_ = false) :
    ImageCallback X s msg =
      { s with log := s.log ++ [Event.ROS_WARN "No Camera Info Received Yet"] } := by
  simp [ImageCallback, h, Node.emit]

theorem detectorCalls_map_solveEvent (s : Node) (detections : List TagDetection) :
    detectorCalls (detections.map (solveEvent s)) = 0 := by
  induction detections with
  | nil => rfl
  | cons d rest ih => simpa [solveEvent, detectorCalls] using ih

theorem ImageCallback_calibrated_detectorCalls (X : Extern) (s : Node) (msg : Image)
    (image : Mat) (hcal : s.has_camera_info_ = true)
    (hcv : X.toCvCopy msg "mono8" = some image) :
    detectorCalls (ImageCallback X s msg).log = detectorCalls s.log + 1 := by
  rw [ImageCallback_calibrated_log X s msg image hcal hcv]
  simp only [detectorCalls_append, detectorCalls_map_solveEvent, detectorCalls]
  split <;> simp [detectorCalls]

/-- C7: a frame delivered while `has_camera_info_` is false only logs the warning: no
publish, no detector call, no solver call, and the node (calibration state, running flag,
size mapping, default) is otherwise untouched. After `InfoCallback` the flag is true and
the stored calibration is the delivered one, and a later frame is processed: the detector
is invoked once and one batch is published. -/
theorem ImageCallback_uncalibrated_is_noop (X : Extern) (s : Node) (msg : Image)
    (h : s.has_camera_info_ = false) :
    published (ImageCallback X s msg).log = published s.log ∧
    detectorCalls (ImageCallback X s msg).log = detectorCalls s.log ∧
    solverCalls (ImageCallback X s msg).log = solverCalls s.log ∧
    (ImageCallback X s msg).has_camera_info_ = false ∧
    (ImageCallback X s msg).camera_info_ = s.camera_info_ ∧
    (ImageCallback X s msg).running_ = s.running_ ∧
    (ImageCallback X s msg).tag_sizes_ = s.tag_sizes_ ∧
    (ImageCallback X s msg).default_tag_size_ = s.default_tag_size_ ∧
    (∀ camera_info : CameraInfo,
      (InfoCallback (ImageCallback X s msg) camera_info).has_camera_info_ = true ∧
      (InfoCallback (ImageCallback X s msg) camera_info).camera_info_ = camera_info ∧
      ∀ (later : Image) (image : Mat), X.toCvCopy later "mono8" = some image →
        detectorCalls
            (ImageCallback X (InfoCallback (ImageCallback X s msg) camera_info) later).log =
          detectorCalls s.log + 1 ∧
        published
            (ImageCallback X (InfoCallback (ImageCallback X s msg) camera_info) later).log =
          published s.log ++
            [markersFrom X (InfoCallback s camera_info)
              (X.process image ⟨0.5 * image.rows, 0.5 * image.cols⟩) 0]) := by
  rw [ImageCallback_uncalibrated_eq X s msg h]
  refine ⟨?_, ?_, ?_, h, rfl, rfl, rfl, rfl, ?_⟩
  · simp [published_append, published]
  · simp [detectorCalls_append, detectorCalls]
  · simp [solverCalls_append, solverCalls]
  · intro camera_info
    refine ⟨rfl, rfl, ?_⟩
    intro later image hcv
    constructor
    · rw [ImageCallback_calibrated_detectorCalls X _ later image rfl hcv]
      simp [InfoCallback, detectorCalls_append, detectorCalls]
    · rw [ImageCallback_calibrated X _ later image rfl hcv]
      simp only [InfoCallback, published_append, published, List.append_nil]
      congr 2
      exact markersFrom_log X (InfoCallback s camera_info) _ _ 0

/-- Witness for C7: the idle, uncalibrated node drops a frame without publishing. -/
theorem ImageCallback_uncalibrated_is_noop_witness :
    published (ImageCallback (fakeExtern [squareDetection 5]) idleNode sampleFrame).log =
      published idleNode.log :=
  (ImageCallback_uncalibrated_is_noop (fakeExtern [squareDetection 5]) idleNode sampleFrame
    rfl).1

theorem frames_uncalibrated (X : Extern) (msgs : List Image) :
    ∀ s : Node, s.has_camera_info_ = false →
      frames X s msgs =
        { s with log := s.log ++
            List.replicate msgs.length (Event.ROS_WARN "No Camera Info Received Yet") } := by
  induction msgs with
  | nil => intro s _; simp [frames]
  | cons m rest ih =>
    intro s h
    have h1 := ih (ImageCallback X s m) (by rw [ImageCallback_uncalibrated_eq X s m h]; exact h)
    simp only [frames, List.foldl_cons] at h1 ⊢
    rw [h1, ImageCallback_uncalibrated_eq X s m h]
    simp [List.replicate_succ]

theorem warnings_replicate (n : Nat) (text : String) :
    warnings (List.replicate n (Event.ROS_WARN text)) = List.replicate n text := by
  induction n with
  | zero => rfl
  | succ n ih => simp [List.replicate_succ, warnings, ih]

/-- C8 fails as stated: a run of two frames delivered before calibration logs the
missing-calibration warning twice, not once. -/
theorem warning_logged_for_each_of_two_frames :
    warnings (frames (fakeExtern []) idleNode [sampleFrame, sampleFrame]).log =
      ["No Camera Info Received Yet", "No Camera Info Received Yet"] ∧
    (warnings (frames (fakeExtern []) idleNode [sampleFrame, sampleFrame]).log).length ≠ 1 := by
  constructor
  · rfl
  · decide

/-- C8 as amended: for every run of `n` consecutive frames delivered while calibration has
not been received, the missing-calibration warning is logged exactly `n` times, once per
frame, and the node is still uncalibrated afterwards. -/
theorem warning_logged_once_per_frame (X : Extern) (s : Node) (msgs : List Image)
    (h : s.has_camera_info_ = false) :
    warnings (frames X s msgs).log =
      warnings s.log ++ List.replicate msgs.length "No Camera Info Received Yet" ∧
    (frames X s msgs).has_camera_info_ = false := by
  rw [frames_uncalibrated X msgs s h]
  exact ⟨by simp [warnings_append, warnings_replicate], h⟩

/-- Witness for C8 as amended: three frames, three warnings. -/
theorem warning_logged_once_per_frame_witness :
    warnings (frames (fakeExtern []) idleNode [sampleFrame, sampleFrame, sampleFrame]).log =
      warnings idleNode.log ++ List.replicate 3 "No Camera Info Received Yet" :=
  (warning_logged_once_per_frame (fakeExtern []) idleNode
    [sampleFrame, sampleFrame, sampleFrame] rfl).1

/-! ## Demand-driven activation -/

theorem ConnectCallback_activates (s : Node) (n : Nat) (hn : n ≠ 0)
    (hr : s.running_ = false) :
    ConnectCallback s n =
      { s with
        image_live := s.image_live + 1 - (if s.image_subscriber then 1 else 0)
        info_live := s.info_live + 1 - (if s.info_subscriber then 1 else 0)
        image_subscriber := true
        info_subscriber := true
        running_ := true
        log := s.log ++
          [Event.ROS_DEBUG "Subscription detected! (%d subscribers)",
           Event.ROS_DEBUG "New Subscribers, Connecting to Input Image Topic.",
           Event.subscribe Stream.image 1, Event.subscribe Stream.camera_info 10] } := by
  simp [ConnectCallback, Node.emit, Node.subscribeImage, Node.subscribeInfo, hn, hr]

theorem ConnectCallback_idles (s : Node) (n : Nat) (h : ¬ (n ≠ 0 ∧ s.running_ = false)) :
    ConnectCallback s n =
      { s with log := s.log ++ [Event.ROS_DEBUG "Subscription detected! (%d subscribers)"] } := by
  simp only [ConnectCallback, Node.emit]
  split
  · rename_i hc
    simp only [Bool.and_eq_true, decide_eq_true_eq, Bool.not_eq_true'] at hc
    exact absurd hc h
  · rfl

theorem DisconnectCallback_deactivates (s : Node) (n : Nat) (hn : n = 0)
    (hr : s.running_ = true) :
    DisconnectCallback s n =
      { s with
        image_live := s.image_live - (if s.image_subscriber then 1 else 0)
        info_live := s.info_live - (if s.info_subscriber then 1 else 0)
        image_subscriber := false
        info_subscriber := false
        running_ := false
        log := s.log ++
          [Event.ROS_DEBUG "Unsubscription detected! (%d subscribers)",
           Event.ROS_DEBUG "No Subscribers, Disconnecting from Input Image Topic.",
           Event.shutdown Stream.image, Event.shutdown Stream.camera_info] } := by
  simp [DisconnectCallback, Node.emit, Node.shutdownImage, Node.shutdownInfo, hn, hr]

theorem DisconnectCallback_idles (s : Node) (n : Nat) (h : ¬ (n = 0 ∧ s.running_ = true)) :
    DisconnectCallback s n =
      { s with
        log := s.log ++ [Event.ROS_DEBUG "Unsubscription detected! (%d subscribers)"] } := by
  simp only [DisconnectCallback, Node.emit]
  split
  · rename_i hc
    simp only [Bool.and_eq_true, decide_eq_true_eq] at hc
    exact absurd hc h
  · rfl

theorem transport_ConnectCallback (s : Node) (n : Nat) :
    transport (ConnectCallback s n).log =
      transport s.log ++
        (if n ≠ 0 ∧ s.running_ = false then [(true, Stream.image), (true, Stream.camera_info)]
         else []) := by
  by_cases h : n ≠ 0 ∧ s.running_ = false
  · rw [ConnectCallback_activates s n h.1 h.2, if_pos h]
    simp [transport_append, transport]
  · rw [ConnectCallback_idles s n h, if_neg h]
    simp [transport_append, transport]

theorem transport_DisconnectCallback (s : Node) (n : Nat) :
    transport (DisconnectCallback s n).log =
      transport s.log ++
        (if n = 0 ∧ s.running_ = true then [(false, Stream.image), (false, Stream.camera_info)]
         else []) := by
  by_cases h : n = 0 ∧ s.running_ = true
  · rw [DisconnectCallback_deactivates s n h.1 h.2, if_pos h]
    simp [transport_append, transport]
  · rw [DisconnectCallback_idles s n h, if_neg h]
    simp [transport_append, transport]

theorem running_ConnectCallback (s : Node) (n : Nat) :
    (ConnectCallback s n).running_ = (s.running_ || decide (n ≠ 0)) := by
  by_cases h : n ≠ 0 ∧ s.running_ = false
  · rw [ConnectCallback_activates s n h.1 h.2]
    simp [h.1]
  · rw [ConnectCallback_idles s n h]
    by_cases hn : n = 0
    · simp [hn]
    · have : s.running_ = true := by
        cases hr : s.running_
        · exact absurd ⟨hn, hr⟩ h
        · rfl
      simp [this]

theorem running_DisconnectCallback (s : Node) (n : Nat) :
    (DisconnectCallback s n).running_ = (s.running_ && decide (n ≠ 0)) := by
  by_cases h : n = 0 ∧ s.running_ = true
  · rw [DisconnectCallback_deactivates s n h.1 h.2]
    simp [h.1]
  · rw [DisconnectCallback_idles s n h]
    by_cases hn : n = 0
    · have : s.running_ = false := by
        cases hr : s.running_
        · rfl
        · exact absurd ⟨hn, hr⟩ h
      simp [this]
    · simp [hn]

/-- C5: from the idle state, connect(1), connect(2), disconnect(1), disconnect(0) subscribe
to both streams once at the first notification, do nothing to the subscriptions at the
second and third, and shut both down once at the fourth. In general `ConnectCallback`
subscribes exactly when the count is nonzero and `running_` is false, and
`DisconnectCallback` shuts down exactly when the count is zero and `running_` is true. -/
theorem demand_transitions (s : Node) (hidle : s.running_ = false) :
    transport (ConnectCallback s 1).log =
      transport s.log ++ [(true, Stream.image), (true, Stream.camera_info)] ∧
    transport (ConnectCallback (ConnectCallback s 1) 2).log =
      transport (ConnectCallback s 1).log ∧
    transport (DisconnectCallback (ConnectCallback (ConnectCallback s 1) 2) 1).log =
      transport (ConnectCallback (ConnectCallback s 1) 2).log ∧
    transport
        (DisconnectCallback (DisconnectCallback (ConnectCallback (ConnectCallback s 1) 2) 1) 0).log =
      transport (DisconnectCallback (ConnectCallback (ConnectCallback s 1) 2) 1).log ++
        [(false, Stream.image), (false, Stream.camera_info)] ∧
    (DisconnectCallback (DisconnectCallback (ConnectCallback (ConnectCallback s 1) 2) 1)
      0).running_ = false ∧
    (∀ (t : Node) (n : Nat),
      (n ≠ 0 ∧ t.running_ = false →
        transport (ConnectCallback t n).log =
          transport t.log ++ [(true, Stream.image), (true, Stream.camera_info)]) ∧
      (¬ (n ≠ 0 ∧ t.running_ = false) →
        transport (ConnectCallback t n).log = transport t.log) ∧
      (n = 0 ∧ t.running_ = true →
        transport (DisconnectCallback t n).log =
          transport t.log ++ [(false, Stream.image), (false, Stream.camera_info)]) ∧
      (¬ (n = 0 ∧ t.running_ = true) →
        transport (DisconnectCallback t n).log = transport t.log)) := by
  refine ⟨?_, ?_, ?_, ?_, ?_, ?_⟩
  · rw [transport_ConnectCallback, if_pos ⟨by decide, hidle⟩]
  · rw [transport_ConnectCallback, if_neg, List.append_nil]
    simp [running_ConnectCallback]
  · rw [transport_DisconnectCallback, if_neg, List.append_nil]
    simp
  · rw [transport_DisconnectCallback, if_pos]
    simp [running_DisconnectCallback, running_ConnectCallback]
  · simp [running_DisconnectCallback]
  · intro t n
    refine ⟨fun h => ?_, fun h => ?_, fun h => ?_, fun h => ?_⟩
    · rw [transport_ConnectCallback, if_pos h]
    · rw [transport_ConnectCallback, if_neg h, List.append_nil]
    · rw [transport_DisconnectCallback, if_pos h]
    · rw [transport_DisconnectCallback, if_neg h, List.append_nil]

/-- Witness for C5: the four notifications delivered to the idle node. -/
theorem demand_transitions_witness :
    transport (ConnectCallback idleNode 1).log =
      transport idleNode.log ++ [(true, Stream.image), (true, Stream.camera_info)] :=
  (demand_transitions idleNode rfl).1

theorem Synced_notify (s : Node) (e : Notification) (h : Synced s) : Synced (notify s e) := by
  obtain ⟨h1, h2, h3, h4⟩ := h
  cases e with
  | connect n =>
    by_cases hc : n ≠ 0 ∧ s.running_ = false
    · simp only [notify, ConnectCallback_activates s n hc.1 hc.2, Synced]
      rw [hc.2] at h1 h2 h3 h4
      simp [h1, h2, h3, h4]
    · simp only [notify, ConnectCallback_idles s n hc, Synced]
      exact ⟨h1, h2, h3, h4⟩
  | disconnect n =>
    by_cases hc : n = 0 ∧ s.running_ = true
    · simp only [notify, DisconnectCallback_deactivates s n hc.1 hc.2, Synced]
      rw [hc.2] at h1 h2 h3 h4
      simp [h1, h2, h3, h4]
    · simp only [notify, DisconnectCallback_idles s n hc, Synced]
      exact ⟨h1, h2, h3, h4⟩

theorem Synced_notifyAll (ns : List Notification) :
    ∀ s : Node, Synced s → Synced (notifyAll s ns) := by
  induction ns with
  | nil => intro s h; exact h
  | cons e rest ih => intro s h; exact ih (notify s e) (Synced_notify s e h)

/-- C6: from the idle state with no subscriptions, after every finite sequence of connect
and disconnect notifications with arbitrary observed counts, the node holds at most one
live subscription to the image stream and at most one to the calibration stream, holds
exactly one of each if and only if `running_` is true, and a further connect notification
received while running creates no subscription. -/
theorem at_most_one_subscription_per_stream (s : Node) (ns : List Notification)
    (hidle : s.running_ = false) (himage : s.image_subscriber = false)
    (hinfo : s.info_subscriber = false) (hlive : s.image_live = 0 ∧ s.info_live = 0) :
    (notifyAll s ns).image_live ≤ 1 ∧
    (notifyAll s ns).info_live ≤ 1 ∧
    (((notifyAll s ns).image_live = 1 ∧ (notifyAll s ns).info_live = 1) ↔
      (notifyAll s ns).running_ = true) ∧
    (∀ n : Nat, (notifyAll s ns).running_ = true →
      transport (ConnectCallback (notifyAll s ns) n).log = transport (notifyAll s ns).log ∧
      (ConnectCallback (notifyAll s ns) n).image_live = (notifyAll s ns).image_live ∧
      (ConnectCallback (notifyAll s ns) n).info_live = (notifyAll s ns).info_live) := by
  have h0 : Synced s := by
    refine ⟨?_, ?_, ?_, ?_⟩ <;> simp [hidle, himage, hinfo, hlive.1, hlive.2]
  obtain ⟨_, _, h3, h4⟩ := Synced_notifyAll ns s h0
  refine ⟨?_, ?_, ?_, ?_⟩
  · rw [h3]; split <;> omega
  · rw [h4]; split <;> omega
  · rw [h3, h4]
    cases (notifyAll s ns).running_ <;> simp
  · intro n hrun
    have hc : ¬ (n ≠ 0 ∧ (notifyAll s ns).running_ = false) := by simp [hrun]
    rw [ConnectCallback_idles _ n hc]
    simp [transport_append, transport]

/-- Witness for C6: a connect storm on the idle node leaves one subscription per stream. -/
theorem at_most_one_subscription_per_stream_witness :
    (notifyAll idleNode
      [Notification.connect 1, Notification.connect 2, Notification.connect 3]).image_live ≤ 1 :=
  (at_most_one_subscription_per_stream idleNode
    [Notification.connect 1, Notification.connect 2, Notification.connect 3]
    rfl rfl rfl ⟨rfl, rfl⟩).1

/-! ## Calibration across deactivation -/

theorem calibration_ConnectCallback (s : Node) (n : Nat) :
    (ConnectCallback s n).has_camera_info_ = s.has_camera_info_ ∧
    (ConnectCallback s n).camera_info_ = s.camera_info_ := by
  by_cases h : n ≠ 0 ∧ s.running_ = false
  · rw [ConnectCallback_activates s n h.1 h.2]
    exact ⟨rfl, rfl⟩
  · rw [ConnectCallback_idles s n h]
    exact ⟨rfl, rfl⟩

theorem calibration_DisconnectCallback (s : Node) (n : Nat) :
    (DisconnectCallback s n).has_camera_info_ = s.has_camera_info_ ∧
    (DisconnectCallback s n).camera_info_ = s.camera_info_ := by
  by_cases h : n = 0 ∧ s.running_ = true
  · rw [DisconnectCallback_deactivates s n h.1 h.2]
    exact ⟨rfl, rfl⟩
  · rw [DisconnectCallback_idles s n h]
    exact ⟨rfl, rfl⟩

theorem warnings_map_solveEvent (s : Node) (detections : List TagDetection) :
    warnings (detections.map (solveEvent s)) = [] := by
  induction detections with
  | nil => rfl
  | cons d rest ih => simpa [solveEvent, warnings] using ih

theorem ImageCallback_calibrated_warnings (X : Extern) (s : Node) (msg : Image)
    (image : Mat) (hcal : s.has_camera_info_ = true)
    (hcv : X.toCvCopy msg "mono8" = some image) :
    warnings (ImageCallback X s msg).log = warnings s.log := by
  rw [ImageCallback_calibrated_log X s msg image hcal hcv]
  simp only [warnings_append, warnings_map_solveEvent, warnings, List.append_nil]
  split <;> simp [warnings]

/-- C9: `DisconnectCallback` and `ConnectCallback` leave `has_camera_info_` and the stored
calibration unchanged in every state; so after calibration has been received, a
deactivation followed by a re-activation leaves the node calibrated with the same
intrinsics, and the next frame is processed (one batch published, no missing-calibration
warning) without a new calibration message. -/
theorem deactivation_keeps_calibration (s : Node) (n : Nat) :
    (DisconnectCallback s n).has_camera_info_ = s.has_camera_info_ ∧
    (DisconnectCallback s n).camera_info_ = s.camera_info_ ∧
    (ConnectCallback s n).has_camera_info_ = s.has_camera_info_ ∧
    (ConnectCallback s n).camera_info_ = s.camera_info_ ∧
    (∀ (camera_info : CameraInfo) (m : Nat) (X : Extern) (msg : Image) (image : Mat),
      X.toCvCopy msg "mono8" = some image →
      (ConnectCallback (DisconnectCallback (InfoCallback s camera_info) n) m).has_camera_info_
        = true ∧
      (ConnectCallback (DisconnectCallback (InfoCallback s camera_info) n) m).camera_info_
        = camera_info ∧
      published
          (ImageCallback X
            (ConnectCallback (DisconnectCallback (InfoCallback s camera_info) n) m) msg).log =
        published
            (ConnectCallback (DisconnectCallback (InfoCallback s camera_info) n) m).log ++
          [markersFrom X (ConnectCallback (DisconnectCallback (InfoCallback s camera_info) n) m)
            (X.process image ⟨0.5 * image.rows, 0.5 * image.cols⟩) 0] ∧
      warnings
          (ImageCallback X
            (ConnectCallback (DisconnectCallback (InfoCallback s camera_info) n) m) msg).log =
        warnings (ConnectCallback (DisconnectCallback (InfoCallback s camera_info) n) m).log) := by
  refine ⟨(calibration_DisconnectCallback s n).1, (calibration_DisconnectCallback s n).2,
    (calibration_ConnectCallback s n).1, (calibration_ConnectCallback s n).2, ?_⟩
  intro camera_info m X msg image hcv
  have hcal : (ConnectCallback (DisconnectCallback (InfoCallback s camera_info) n)
      m).has_camera_info_ = true := by
    rw [(calibration_ConnectCallback _ m).1, (calibration_DisconnectCallback _ n).1]
    rfl
  refine ⟨hcal, ?_, ImageCallback_calibrated X _ msg image hcal hcv,
    ImageCallback_calibrated_warnings X _ msg image hcal hcv⟩
  rw [(calibration_ConnectCallback _ m).2, (calibration_DisconnectCallback _ n).2]
  rfl

/-- Witness for C9: calibrate the idle node, activate, deactivate, re-activate, and deliver
a frame. -/
theorem deactivation_keeps_calibration_witness :
    (ConnectCallback (DisconnectCallback (InfoCallback (ConnectCallback idleNode 1) sampleInfo)
      0) 1).has_camera_info_ = true :=
  ((deactivation_keeps_calibration (ConnectCallback idleNode 1) 0).2.2.2.2 sampleInfo 1
    (fakeExtern [squareDetection 5]) sampleFrame ⟨480, 640, []⟩ rfl).1

/-! ## Parameter loading -/

theorem loadTags_not_ok_of_bad (X : Extern) (entries : List (String × XmlRpcValue)) :
    ∀ s : Node, (∃ e ∈ entries, entryOk X e = false) →
      ∃ r, loadTags X s entries = Except.error r := by
  induction entries with
  | nil => intro s h; simp at h
  | cons e rest ih =>
    intro s h
    obtain ⟨key, tag_values⟩ := e
    simp only [loadTags]
    cases hc : X.lexical_cast key with
    | none => exact ⟨_, rfl⟩
    | some tag_id =>
      cases hm : tag_values.hasMember "size" with
      | false =>
        have hrest : ∃ e ∈ rest, entryOk X e = false := by
          obtain ⟨e, he, hbad⟩ := h
          rcases List.mem_cons.mp he with rfl | he
          · simp [entryOk, hc, hm] at hbad
          · exact ⟨e, he, hbad⟩
        simpa using ih s hrest
      | true =>
        cases hd : (tag_values.member "size").asDouble with
        | error r => exact ⟨r, by simp⟩
        | ok size =>
          have hrest : ∃ e ∈ rest, entryOk X e = false := by
            obtain ⟨e, he, hbad⟩ := h
            rcases List.mem_cons.mp he with rfl | he
            · simp [entryOk, hc, hm, hd] at hbad
            · exact ⟨e, he, hbad⟩
          simpa using ih _ hrest

theorem loadTags_ok_of_all (X : Extern) (entries : List (String × XmlRpcValue)) :
    ∀ s : Node, (∀ e ∈ entries, entryOk X e = true) →
      ∃ s', loadTags X s entries = Except.ok s' ∧
        s'.default_tag_size_ = s.default_tag_size_ := by
  induction entries with
  | nil => intro s _; exact ⟨s, rfl, rfl⟩
  | cons e rest ih =>
    intro s h
    obtain ⟨key, tag_values⟩ := e
    have he := h (key, tag_values) (List.mem_cons_self _ _)
    have hrest : ∀ e ∈ rest, entryOk X e = true := fun e he => h e (List.mem_cons_of_mem _ he)
    simp only [loadTags]
    cases hc : X.lexical_cast key with
    | none => simp [entryOk, hc] at he
    | some tag_id =>
      cases hm : tag_values.hasMember "size" with
      | false => simpa using ih s hrest
      | true =>
        cases hd : (tag_values.member "size").asDouble with
        | error r => simp [entryOk, hc, hm, hd] at he
        | ok size =>
          obtain ⟨s', h1, h2⟩ := ih
            ({ s with tag_sizes_ := Function.update s.tag_sizes_ (toSizeT tag_id) size }.emit
              (Event.ROS_DEBUG "Setting tag%d to size %f m.")) hrest
          exact ⟨s', by simpa using h1, h2⟩

/-- Entries that set no size under key `k` leave what is stored under `k`. -/
theorem loadTags_other_keys (X : Extern) (k : Nat) (entries : List (String × XmlRpcValue)) :
    ∀ s s' : Node, loadTags X s entries = Except.ok s' →
      (∀ e ∈ entries, ∀ j : Int, e.2.hasMember "size" = true → X.lexical_cast e.1 = some j →
        toSizeT j ≠ k) →
      s'.tag_sizes_ k = s.tag_sizes_ k := by
  induction entries with
  | nil =>
    intro s s' h _
    simp only [loadTags, Except.ok.injEq] at h
    rw [h]
  | cons e rest ih =>
    intro s s' h hne
    obtain ⟨key, tag_values⟩ := e
    have hrest : ∀ e ∈ rest, ∀ j : Int, e.2.hasMember "size" = true →
        X.lexical_cast e.1 = some j → toSizeT j ≠ k :=
      fun e he => hne e (List.mem_cons_of_mem _ he)
    simp only [loadTags] at h
    cases hc : X.lexical_cast key with
    | none => simp [hc] at h
    | some tag_id =>
      cases hm : tag_values.hasMember "size" with
      | false =>
        simp only [hc, hm, Bool.false_eq_true, if_false] at h
        exact ih s s' h hrest
      | true =>
        cases hd : (tag_values.member "size").asDouble with
        | error r => simp [hc, hm, hd] at h
        | ok size =>
          simp only [hc, hm, hd, if_true] at h
          rw [ih _ s' h hrest]
          have hk : k ≠ toSizeT tag_id :=
            fun heq => hne (key, tag_values) (List.mem_cons_self _ _) tag_id hm hc heq.symm
          simp [Node.emit, Function.update_noteq hk]

/-- A sized entry that no later sized entry overrides is what the map holds for its key. -/
theorem loadTags_stores (X : Extern) (key : String) (tag_values : XmlRpcValue) (tag_id : Int)
    (size : ℚ) (post : List (String × XmlRpcValue)) (hc : X.lexical_cast key = some tag_id)
    (hm : tag_values.hasMember "size" = true)
    (hd : (tag_values.member "size").asDouble = Except.ok size)
    (hlast : ∀ e ∈ post, ∀ j : Int, e.2.hasMember "size" = true → X.lexical_cast e.1 = some j →
      toSizeT j ≠ toSizeT tag_id) (pre : List (String × XmlRpcValue)) :
    ∀ s s' : Node, loadTags X s (pre ++ (key, tag_values) :: post) = Except.ok s' →
      s'.tag_sizes_ (toSizeT tag_id) = some size := by
  induction pre with
  | nil =>
    intro s s' h
    simp only [List.nil_append, loadTags, hc, hm, hd, if_true] at h
    rw [loadTags_other_keys X (toSizeT tag_id) post _ s' h hlast]
    simp [Node.emit]
  | cons e rest ih =>
    intro s s' h
    obtain ⟨key0, values0⟩ := e
    simp only [List.cons_append, loadTags] at h
    cases hc0 : X.lexical_cast key0 with
    | none => simp [hc0] at h
    | some id0 =>
      cases hm0 : values0.hasMember "size" with
      | false =>
        simp only [hc0, hm0, Bool.false_eq_true, if_false] at h
        exact ih s s' h
      | true =>
        cases hd0 : (values0.member "size").asDouble with
        | error r => simp [hc0, hm0, hd0] at h
        | ok size0 =>
          simp only [hc0, hm0, hd0, if_true] at h
          exact ih _ s' h

theorem GetParameterValues_eq (X : Extern) (D : Defaults) (P : Params) (s : Node)
    (entries : List (String × XmlRpcValue))
    (hdata : (P.tag_data.getD XmlRpcValue.TypeInvalid).entries = Except.ok entries) :
    GetParameterValues X D P s =
      loadTags X
        { s with
          viewer_ := P.viewer.getD 0
          tag_family_name_ := P.tag_family.getD D.DEFAULT_TAG_FAMILY
          default_tag_size_ := P.default_tag_size.getD D.DEFAULT_TAG_SIZE
          frame_ := P.tf_frame.getD D.DEFAULT_TF_FRAME } entries := by
  simp only [GetParameterValues, hdata]

/-- C10 fails as stated: a `tag_data` entry whose key is not an integer makes
`GetParameterValues` raise `bad_lexical_cast`, an entry whose `size` is a string makes it
raise `XmlRpcException`, and of two well-formed entries `05` and `5` only the later one is
what `GetTagSize` resolves tag 5 to. -/
theorem malformed_entry_raises :
    GetParameterValues (fakeExtern []) sampleDefaults
        (paramsWith [sizeEntry "5" (1 / 5), sizeEntry "abc" (3 / 10)]) idleNode =
      Except.error Raised.bad_lexical_cast ∧
    GetParameterValues (fakeExtern []) sampleDefaults
        (paramsWith [("5", XmlRpcValue.TypeStruct [("size", XmlRpcValue.TypeString "big")])])
        idleNode = Except.error Raised.XmlRpcException ∧
    (∃ s', GetParameterValues (fakeExtern []) sampleDefaults
        (paramsWith [sizeEntry "05" (1 / 10), sizeEntry "5" (1 / 5)]) idleNode = Except.ok s' ∧
      (GetTagSize s' 5).1 = 1 / 5 ∧ (GetTagSize s' 5).1 ≠ 1 / 10) := by
  refine ⟨rfl, rfl, ?_⟩
  have hall : ∀ e ∈ [sizeEntry "05" (1 / 10), sizeEntry "5" (1 / 5)],
      entryOk (fakeExtern []) e = true := by
    intro e he
    simp only [List.mem_cons, List.mem_singleton, List.not_mem_nil, or_false] at he
    rcases he with rfl | rfl <;> rfl
  obtain ⟨s', hs', _⟩ := loadTags_ok_of_all (fakeExtern []) _
    { idleNode with
      viewer_ := (paramsWith []).viewer.getD 0
      tag_family_name_ := (paramsWith []).tag_family.getD sampleDefaults.DEFAULT_TAG_FAMILY
      default_tag_size_ := (paramsWith []).default_tag_size.getD sampleDefaults.DEFAULT_TAG_SIZE
      frame_ := (paramsWith []).tf_frame.getD sampleDefaults.DEFAULT_TF_FRAME } hall
  have hstore : s'.tag_sizes_ (toSizeT 5) = some (1 / 5) :=
    loadTags_stores (fakeExtern []) "5"
      (XmlRpcValue.TypeStruct [("size", XmlRpcValue.TypeDouble (1 / 5))]) 5 (1 / 5) []
      rfl rfl rfl (by simp) [sizeEntry "05" (1 / 10)] _ s' hs'
  refine ⟨s', ?_, ?_, ?_⟩
  · rw [GetParameterValues_eq (fakeExtern []) sampleDefaults
      (paramsWith [sizeEntry "05" (1 / 10), sizeEntry "5" (1 / 5)]) idleNode
      [sizeEntry "05" (1 / 10), sizeEntry "5" (1 / 5)] rfl]
    exact hs'
  · rw [GetTagSize_of_some s' 5 _ hstore]
  · rw [GetTagSize_of_some s' 5 _ hstore]
    norm_num

/-- C10 as amended: when `tag_data` is absent or a struct, `GetParameterValues` completes
without raising exactly when every entry has a key that converts to an `int` and, if it has
a `size` member, a double there; a malformed entry is not skipped but raises and stops the
loading. When it completes, the default is the configured one and every entry with a size
that no later sized entry overrides (same map key) is resolved by `GetTagSize` to its
configured size. -/
theorem GetParameterValues_completes_iff_wellformed (X : Extern) (D : Defaults) (P : Params)
    (s : Node) (entries : List (String × XmlRpcValue))
    (hdata : (P.tag_data.getD XmlRpcValue.TypeInvalid).entries = Except.ok entries) :
    ((∃ s', GetParameterValues X D P s = Except.ok s') ↔
      ∀ e ∈ entries, entryOk X e = true) ∧
    (∀ s', GetParameterValues X D P s = Except.ok s' →
      s'.default_tag_size_ = P.default_tag_size.getD D.DEFAULT_TAG_SIZE ∧
      ∀ (pre post : List (String × XmlRpcValue)) (key : String) (tag_values : XmlRpcValue)
        (tag_id : Int) (size : ℚ),
        entries = pre ++ (key, tag_values) :: post →
        X.lexical_cast key = some tag_id →
        tag_values.hasMember "size" = true →
        (tag_values.member "size").asDouble = Except.ok size →
        (∀ e ∈ post, ∀ j : Int, e.2.hasMember "size" = true → X.lexical_cast e.1 = some j →
          toSizeT j ≠ toSizeT tag_id) →
        (GetTagSize s' tag_id).1 = size) := by
  rw [GetParameterValues_eq X D P s entries hdata]
  refine ⟨⟨?_, ?_⟩, ?_⟩
  · rintro ⟨s', hs'⟩
    by_contra hno
    have hbad : ∃ e ∈ entries, entryOk X e = false := by
      by_contra hnone
      apply hno
      intro e he
      cases hv : entryOk X e with
      | true => rfl
      | false => exact absurd ⟨e, he, hv⟩ hnone
    obtain ⟨r, hr⟩ := loadTags_not_ok_of_bad X entries _ hbad
    rw [hr] at hs'
    cases hs'
  · intro hall
    obtain ⟨s', hs', _⟩ := loadTags_ok_of_all X entries _ hall
    exact ⟨s', hs'⟩
  · intro s' hs'
    constructor
    · have hall : ∀ e ∈ entries, entryOk X e = true := by
        intro e he
        cases hv : entryOk X e with
        | true => rfl
        | false =>
          obtain ⟨r, hr⟩ := loadTags_not_ok_of_bad X entries _ ⟨e, he, hv⟩
          rw [hr] at hs'
          cases hs'
      obtain ⟨s'', hs'', hdef⟩ := loadTags_ok_of_all X entries _ hall
      rw [hs''] at hs'
      cases hs'
      exact hdef
    · intro pre post key tag_values tag_id size hsplit hc hm hd hlast
      rw [hsplit] at hs'
      rw [GetTagSize_of_some s' tag_id size
        (loadTags_stores X key tag_values tag_id size post hc hm hd hlast pre _ s' hs')]

/-- Witness for C10 as amended: two well-formed entries load without raising. -/
theorem GetParameterValues_completes_iff_wellformed_witness :
    ∃ s', GetParameterValues (fakeExtern []) sampleDefaults
      (paramsWith [sizeEntry "5" (1 / 5), sizeEntry "7" (3 / 10)]) idleNode = Except.ok s' :=
  (GetParameterValues_completes_iff_wellformed (fakeExtern []) sampleDefaults
    (paramsWith [sizeEntry "5" (1 / 5), sizeEntry "7" (3 / 10)]) idleNode
    [sizeEntry "5" (1 / 5), sizeEntry "7" (3 / 10)] rfl).1.2
    (by
      intro e he
      simp only [List.mem_cons, List.mem_singleton, List.not_mem_nil, or_false] at he
      rcases he with rfl | rfl <;> rfl)

end Apriltags
